import Mathlib

/-!
Verification development for the stockSense dashboard repository.

The TypeScript sources are shallowly embedded:
* JavaScript numbers are modelled as `ℚ` (the claims under study involve no
  floating-point rounding subtleties beyond `toFixed(2)`, which is modelled
  as rounding to a multiple of 1/100);
* `async` functions that can reject are modelled with `Except Unit`;
  a JavaScript value that may be `null`/`undefined` is modelled with `Option`;
* `Math.random()` draws are passed in explicitly as `ℚ` parameters (or as a
  stream `ℕ → ℚ`), since the generators are not seeded;
* calls into remote services (the Breeze brokerage SDK, the Alpha Vantage
  REST API, the Gemini generative-language API) are modelled by environment
  records carrying the outcome of each remote call, universally quantified
  in the theorems.
-/

/-!
JS string primitives are embedded on the underlying character lists
(`String.data`), so that every definition evaluates inside the kernel.
-/

/-- Does the first list start with the second? -/
def listStartsWith : List Char → List Char → Bool
  | _, [] => true
  | [], _ :: _ => false
  | c :: cs, p :: ps => c == p && listStartsWith cs ps

/-- JS `String.prototype.startsWith`. -/
def jsStartsWith (s pat : String) : Bool :=
  listStartsWith s.data pat.data

/-- Remove the first occurrence of `pat` (non-empty) from the list. -/
def removeFirstAux (pat : List Char) : List Char → List Char
  | [] => []
  | c :: cs =>
    if listStartsWith (c :: cs) pat then cs.drop (pat.length - 1)
    else c :: removeFirstAux pat cs

/-- JS `String.prototype.replace` with a string pattern and an empty
replacement: it removes only the first occurrence of the pattern. -/
def replaceFirst (s pat : String) : String :=
  if pat.data.isEmpty then s else ⟨removeFirstAux pat.data s.data⟩

/-- Does `pat` occur in the list (at any position)? -/
def containsSubAux (pat : List Char) : List Char → Bool
  | [] => pat.isEmpty
  | c :: cs => listStartsWith (c :: cs) pat || containsSubAux pat cs

/-- JS `String.prototype.includes`. -/
def includesStr (s sub : String) : Bool :=
  containsSubAux sub.data s.data

/-- JS `String.prototype.toLowerCase` (ASCII, which covers every string
the sources compare). -/
def jsToLower (s : String) : String :=
  ⟨s.data.map Char.toLower⟩

/-- JS `String.prototype.trim`. -/
def jsTrim (s : String) : String :=
  ⟨((s.data.dropWhile Char.isWhitespace).reverse.dropWhile
      Char.isWhitespace).reverse⟩

/-- JS `String.prototype.length` (code points; the sources only compare it
with small constants). -/
def jsLength (s : String) : ℕ := s.data.length

/-- JS `parseFloat(x.toFixed(2))`: round to the nearest multiple of 1/100
(ties at half a cent follow `round`, which is immaterial to the claims). -/
def round2 (q : ℚ) : ℚ := ((round (q * 100) : ℤ) : ℚ) / 100

/-- JS `x.toFixed(2)` as a string (two digits after the decimal point). -/
def ratToFixed2 (q : ℚ) : String :=
  let n : ℤ := round (q * 100)
  let sign := if n < 0 then "-" else ""
  let m := n.natAbs
  let f := m % 100
  sign ++ toString (m / 100) ++ "." ++ (if f < 10 then "0" else "") ++ toString f

/-- A chart point (`{ date, value }`).  The source stores the date as a
`YYYY-MM-DD` string obtained from a day offset; we model the date as the
day number itself (days since an arbitrary epoch), which preserves the
calendar-day arithmetic performed by the source. -/
structure ChartPoint where
  date : ℤ
  value : ℚ
  deriving DecidableEq, Repr

/-- The quote record built by `generateMockStockData` and by the
Alpha Vantage branch of `fetchStockQuote` (symbol, name, price, change,
changePercent, volume). -/
structure Quote where
  symbol : String
  name : String
  price : ℚ
  change : ℚ
  changePercent : ℚ
  volume : ℤ
  deriving DecidableEq, Repr

/-- The company-overview record (`generateMockCompanyOverview` and the
Breeze/Alpha Vantage overview paths share this field set; `marketCap` is a
formatted string on the mock paths). -/
structure CompanyOverview where
  symbol : String
  name : String
  description : String
  exchange : String
  industry : String
  sector : String
  marketCap : String
  peRatio : ℚ
  eps : ℚ
  dividend : ℚ
  targetPrice : ℚ
  deriving DecidableEq, Repr

/-- A market-index record (`generateMockIndexData`). -/
structure IndexData where
  name : String
  value : ℚ
  change : ℚ
  changePercent : ℚ
  currency : String
  isMock : Bool
  deriving DecidableEq, Repr

/-- A search result entry (`getMockSearchResults` / Breeze search). -/
structure SearchResult where
  symbol : String
  name : String
  region : String
  currency : String
  type : String
  deriving DecidableEq, Repr

/-- The richer quote record returned by `breezeUtils.getStockQuote`
(the source names the fourth price field `open`; Lean reserves that word,
so the field is called `openPrice` here). -/
structure BreezeQuote where
  symbol : String
  name : String
  price : ℚ
  change : ℚ
  changePercent : ℚ
  volume : ℤ
  high : ℚ
  low : ℚ
  openPrice : ℚ
  previousClose : ℚ
  marketCap : ℚ
  avgVolume : ℤ
  week52High : ℚ
  week52Low : ℚ
  currency : String
  deriving DecidableEq, Repr

/-- The value returned by the quote-fetch orchestrators: either the Breeze
record, the record assembled from an Alpha Vantage `Global Quote`, or a
synthetic (mock) record.  The TypeScript functions are untyped (`any`);
this sum type records which provider produced the value. -/
inductive StockQuoteResult where
  | breeze (q : BreezeQuote)
  | av (q : Quote)
  | mock (q : Quote)
  deriving DecidableEq, Repr

namespace hooks

/-- `addToWatchlist` from the `useWatchlist` hook: append the symbol only
when it is not already present. -/
def addToWatchlist (watchlist : List String) (symbol : String) : List String :=
  if watchlist.contains symbol then watchlist else watchlist ++ [symbol]

/-- `removeFromWatchlist`: drop every occurrence of the symbol. -/
def removeFromWatchlist (watchlist : List String) (symbol : String) : List String :=
  watchlist.filter (fun s => s != symbol)

/-- `isInWatchlist`. -/
def isInWatchlist (watchlist : List String) (symbol : String) : Bool :=
  watchlist.contains symbol

/-- A user action on the watchlist. -/
inductive WatchlistOp where
  | add (symbol : String)
  | remove (symbol : String)

/-- Apply one watchlist action. -/
def applyOp (watchlist : List String) : WatchlistOp → List String
  | .add s => addToWatchlist watchlist s
  | .remove s => removeFromWatchlist watchlist s

/-- Apply a sequence of watchlist actions. -/
def applyOps (watchlist : List String) : List WatchlistOp → List String
  | [] => watchlist
  | op :: ops => applyOps (applyOp watchlist op) ops

end hooks

namespace stockUtils

/-- The record returned by the heuristic `getAIRecommendation` in
`stockUtils.ts`.  The TS return type narrows `recommendation` to
"Buy" | "Sell" | "Hold"; the field is kept as a string here. -/
structure Recommendation where
  recommendation : String
  confidence : ℚ
  reasons : List String
  deriving DecidableEq, Repr

/-- Factor 1 of the heuristic: price momentum — the score adjustment and
the reason it contributes (the source mutates `score`/`reasons`; the
embedding accumulates the same branches in the same order). -/
def momentumFactor (priceChangePercent : ℚ) : ℚ × List String :=
  if priceChangePercent > 2 then (15, ["Strong positive price momentum"])
  else if priceChangePercent > 0.5 then (7, ["Positive price trend"])
  else if priceChangePercent < -2 then (-15, ["Significant price decline"])
  else if priceChangePercent < -0.5 then (-7, ["Negative price trend"])
  else (0, [])

/-- Factor 2 of the heuristic: P/E ratio evaluation. -/
def peFactor (peRatio : ℚ) : ℚ × List String :=
  if peRatio < 15 then (10, ["Attractive P/E ratio indicates potential value"])
  else if peRatio > 30 then (-10, ["High P/E ratio may indicate overvaluation"])
  else (0, [])

/-- Factor 3 of the heuristic: volume analysis
(`volumeRatio = volume / avgVolume`). -/
def volumeFactor (volume avgVolume priceChangePercent : ℚ) : ℚ × List String :=
  let volumeRatio := volume / avgVolume
  if volumeRatio > 1.5 ∧ priceChangePercent > 0 then
    (12, ["High volume supporting price increase"])
  else if volumeRatio > 1.5 ∧ priceChangePercent < 0 then
    (-12, ["High volume driving price down"])
  else (0, [])

/-- The heuristic's score: the neutral starting point 50 plus the three
factor adjustments. -/
def score (priceChangePercent peRatio volume avgVolume : ℚ) : ℚ :=
  50 + (momentumFactor priceChangePercent).1 + (peFactor peRatio).1 +
    (volumeFactor volume avgVolume priceChangePercent).1

/-- The heuristic `getAIRecommendation` of `stockUtils.ts`: Buy at score 65
and above, Sell at 35 and below, Hold in between; confidence is
`Math.min(100, Math.max(0, |score - 50| * 2))`; reasons are the collected
factor reasons, capped at 3 by `slice(0, 3)`. -/
def getAIRecommendation (priceChangePercent peRatio volume avgVolume : ℚ) :
    Recommendation :=
  let s := score priceChangePercent peRatio volume avgVolume
  { recommendation :=
      if s ≥ 65 then "Buy" else if s ≤ 35 then "Sell" else "Hold",
    confidence := min 100 (max 0 (|s - 50| * 2)),
    reasons := ((momentumFactor priceChangePercent).2 ++ (peFactor peRatio).2 ++
      (volumeFactor volume avgVolume priceChangePercent).2).take 3 }

end stockUtils

namespace apiUtils

/-- The choice made by `formatCurrency` via `Intl.NumberFormat`: the locale,
currency code and fraction-digit options passed to the formatter, together
with the amount being formatted.  (The rendered string itself is produced
by the browser's `Intl` implementation, outside this repository.) -/
structure FormattedCurrency where
  locale : String
  currency : String
  minimumFractionDigits : ℕ
  maximumFractionDigits : ℕ
  amount : ℚ
  deriving DecidableEq, Repr

/-- `formatCurrency(num, symbol)` (the `symbol` parameter defaults to `''`
in the source): Indian Rupee formatting for `NSE:`-prefixed symbols, US
Dollar formatting otherwise, both with exactly two fraction digits. -/
def formatCurrency (num : ℚ) (symbol : String) : FormattedCurrency :=
  let isIndianStock := jsStartsWith symbol "NSE:"
  if isIndianStock then
    { locale := "en-IN", currency := "INR",
      minimumFractionDigits := 2, maximumFractionDigits := 2, amount := num }
  else
    { locale := "en-US", currency := "USD",
      minimumFractionDigits := 2, maximumFractionDigits := 2, amount := num }

/-- An entry of the hard-coded Indian stock table in `generateMockStockData`. -/
structure MockStockInfo where
  name : String
  sector : String
  price : ℚ
  change : ℚ
  deriving DecidableEq, Repr

/-- The `indianStocks` lookup table of `generateMockStockData`. -/
def indianStocksQuote : List (String × MockStockInfo) :=
  [("RELIANCE", ⟨"Reliance Industries Ltd.", "Energy", 2934.75, 23.45⟩),
   ("TCS", ⟨"Tata Consultancy Services Ltd.", "Technology", 3876.20, -12.80⟩),
   ("HDFCBANK", ⟨"HDFC Bank Ltd.", "Financial Services", 1678.55, 15.30⟩),
   ("INFY", ⟨"Infosys Ltd.", "Technology", 1456.90, -8.75⟩),
   ("ICICIBANK", ⟨"ICICI Bank Ltd.", "Financial Services", 1023.45, 7.65⟩),
   ("BHARTIARTL", ⟨"Bharti Airtel Ltd.", "Telecom", 1189.30, 5.20⟩),
   ("HINDUNILVR", ⟨"Hindustan Unilever Ltd.", "Consumer Goods", 2456.75, -18.50⟩),
   ("SBIN", ⟨"State Bank of India", "Financial Services", 745.60, 3.25⟩),
   ("WIPRO", ⟨"Wipro Ltd.", "Technology", 478.90, -2.35⟩),
   ("LT", ⟨"Larsen & Toubro Ltd.", "Construction", 3245.80, 28.45⟩),
   ("NIFTY", ⟨"NIFTY 50 Index", "Index", 22345.60, 123.45⟩),
   ("BANKNIFTY", ⟨"Bank NIFTY Index", "Index", 48234.75, 234.50⟩),
   ("SENSEX", ⟨"S&P BSE SENSEX Index", "Index", 73456.80, 345.70⟩),
   ("NIFTYIT", ⟨"NIFTY IT Index", "Index", 32567.90, -156.40⟩)]

/-- The `usCompanies` name/sector table of `generateMockStockData`. -/
def usCompaniesQuote : List (String × String × String) :=
  [("AAPL", "Apple Inc.", "Technology"),
   ("MSFT", "Microsoft Corporation", "Technology"),
   ("GOOGL", "Alphabet Inc.", "Technology"),
   ("AMZN", "Amazon.com Inc.", "Consumer Discretionary"),
   ("META", "Meta Platforms Inc.", "Technology"),
   ("TSLA", "Tesla Inc.", "Automotive"),
   ("NVDA", "NVIDIA Corporation", "Technology"),
   ("NFLX", "Netflix Inc.", "Entertainment"),
   ("DIS", "The Walt Disney Company", "Entertainment"),
   ("IBM", "International Business Machines", "Technology")]

/-- `generateMockStockData(symbol)`; the three `Math.random()` draws it
makes (base price, change, volume) are passed as `rPrice rChange rVolume`,
each drawn from `[0,1)`. -/
def generateMockStockData (symbol : String) (rPrice rChange rVolume : ℚ) : Quote :=
  let isIndianStock := jsStartsWith symbol "NSE:"
  let stockCode := replaceFirst symbol "NSE:"
  match isIndianStock, indianStocksQuote.lookup stockCode with
  | true, some info =>
      { symbol := symbol, name := info.name, price := info.price,
        change := info.change,
        changePercent := round2 ((info.change / info.price) * 100),
        volume := ⌊rVolume * 10000000⌋ + 1000000 }
  | true, none =>
      let basePrice := rPrice * 4950 + 50
      let change := rChange * 20 - 10
      let changePercent := (change / basePrice) * 100
      { symbol := symbol, name := stockCode ++ " Ltd.",
        price := round2 basePrice, change := round2 change,
        changePercent := round2 changePercent,
        volume := ⌊rVolume * 10000000⌋ + 1000000 }
  | false, _ =>
      let basePrice := rPrice * 450 + 50
      let change := rChange * 20 - 10
      let changePercent := (change / basePrice) * 100
      let companyInfo := (usCompaniesQuote.lookup symbol).getD
        (symbol ++ " Corporation", "US Equity")
      { symbol := symbol, name := companyInfo.1,
        price := round2 basePrice, change := round2 change,
        changePercent := round2 changePercent,
        volume := ⌊rVolume * 10000000⌋ + 1000000 }

/-- An entry of the Indian overview table in `generateMockCompanyOverview`. -/
structure MockOverviewInfo where
  name : String
  sector : String
  description : String
  marketCap : String
  peRatio : ℚ
  eps : ℚ
  dividend : ℚ
  deriving DecidableEq, Repr

/-- The `indianStocks` table of `generateMockCompanyOverview`. -/
def indianStocksOverview : List (String × MockOverviewInfo) :=
  [("RELIANCE", ⟨"Reliance Industries Ltd.", "Energy",
      "Reliance Industries Limited is an Indian multinational conglomerate company, headquartered in Mumbai. Its diverse businesses include energy, petrochemicals, natural gas, retail, telecommunications, mass media, and textiles.",
      "₹18,45,678 Cr", 28.45, 103.15, 2.75⟩),
   ("TCS", ⟨"Tata Consultancy Services Ltd.", "Technology",
      "Tata Consultancy Services is an Indian multinational information technology services and consulting company headquartered in Mumbai. It is part of the Tata Group and operates in 149 locations across 46 countries.",
      "₹13,56,789 Cr", 32.67, 118.65, 3.15⟩),
   ("HDFCBANK", ⟨"HDFC Bank Ltd.", "Financial Services",
      "HDFC Bank Limited is an Indian banking and financial services company headquartered in Mumbai. It is India\x27s largest private sector bank by assets and market capitalization.",
      "₹11,23,456 Cr", 22.34, 75.14, 1.85⟩),
   ("INFY", ⟨"Infosys Ltd.", "Technology",
      "Infosys Limited is an Indian multinational information technology company that provides business consulting, information technology and outsourcing services.",
      "₹7,89,123 Cr", 29.78, 48.92, 2.65⟩),
   ("ICICIBANK", ⟨"ICICI Bank Ltd.", "Financial Services",
      "ICICI Bank Limited is an Indian multinational banking and financial services company headquartered in Mumbai. It offers a wide range of banking products and financial services to corporate and retail customers.",
      "₹6,78,912 Cr", 21.56, 47.47, 1.45⟩),
   ("BHARTIARTL", ⟨"Bharti Airtel Ltd.", "Telecom",
      "Bharti Airtel Limited is an Indian multinational telecommunications services company headquartered in New Delhi. It operates in 18 countries across South Asia and Africa.",
      "₹5,67,891 Cr", 34.23, 34.74, 1.25⟩),
   ("HINDUNILVR", ⟨"Hindustan Unilever Ltd.", "Consumer Goods",
      "Hindustan Unilever Limited is an Indian consumer goods company headquartered in Mumbai. It is a subsidiary of Unilever, a British company.",
      "₹6,12,345 Cr", 68.92, 35.65, 4.15⟩),
   ("SBIN", ⟨"State Bank of India", "Financial Services",
      "State Bank of India is an Indian multinational, public sector banking and financial services statutory body headquartered in Mumbai. It is a government corporation.",
      "₹5,23,456 Cr", 12.34, 60.42, 2.25⟩)]

/-- The `usCompanies` table of `generateMockCompanyOverview`
(name, sector, description). -/
def usCompaniesOverview : List (String × String × String × String) :=
  [("AAPL", "Apple Inc.", "Technology",
      "Apple Inc. is an American multinational technology company that designs, develops, and sells consumer electronics, computer software, and online services."),
   ("MSFT", "Microsoft Corporation", "Technology",
      "Microsoft Corporation is an American multinational technology corporation that produces computer software, consumer electronics, personal computers, and related services."),
   ("GOOGL", "Alphabet Inc.", "Technology",
      "Alphabet Inc. is an American multinational technology conglomerate holding company headquartered in Mountain View, California. It was created through a restructuring of Google in 2015."),
   ("AMZN", "Amazon.com Inc.", "Consumer Discretionary",
      "Amazon.com, Inc. is an American multinational technology company focusing on e-commerce, cloud computing, digital streaming, and artificial intelligence."),
   ("META", "Meta Platforms Inc.", "Technology",
      "Meta Platforms, Inc., formerly known as Facebook, Inc., is an American multinational technology conglomerate that owns Facebook, Instagram, and WhatsApp, among other products and services.")]

/-- `generateMockCompanyOverview(symbol)`; `rCap rPe rEps rDiv rTarget` are
its `Math.random()` draws, each from `[0,1)`. -/
def generateMockCompanyOverview (symbol : String)
    (rCap rPe rEps rDiv rTarget : ℚ) : CompanyOverview :=
  let isIndianStock := jsStartsWith symbol "NSE:"
  let stockCode := replaceFirst symbol "NSE:"
  match isIndianStock, indianStocksOverview.lookup stockCode with
  | true, some info =>
      { symbol := symbol, name := info.name, description := info.description,
        exchange := "NSE", industry := info.sector, sector := info.sector,
        marketCap := info.marketCap, peRatio := info.peRatio, eps := info.eps,
        dividend := info.dividend, targetPrice := round2 (rTarget * 20 + 110) }
  | true, none =>
      { symbol := symbol, name := stockCode ++ " Ltd.",
        description := stockCode ++ " is a leading Indian company in its sector.",
        exchange := "NSE", industry := "Indian Equity", sector := "Indian Equity",
        marketCap := "₹" ++ ratToFixed2 (rCap * 5000 + 100) ++ " Cr",
        peRatio := round2 (rPe * 50 + 5), eps := round2 (rEps * 50 + 5),
        dividend := round2 (rDiv * 5), targetPrice := round2 (rTarget * 100 + 50) }
  | false, _ =>
      let companyInfo := (usCompaniesOverview.lookup symbol).getD
        (symbol ++ " Corporation", "US Equity",
         symbol ++ " is a leading US company in its sector.")
      { symbol := symbol, name := companyInfo.1,
        description := companyInfo.2.2, exchange := "NASDAQ/NYSE",
        industry := companyInfo.2.1, sector := companyInfo.2.1,
        marketCap := "$" ++ ratToFixed2 (rCap * 1000 + 10) ++ "B",
        peRatio := round2 (rPe * 50 + 5), eps := round2 (rEps * 10),
        dividend := round2 (rDiv * 5), targetPrice := round2 (rTarget * 100 + 50) }

/-- The `indianStockPrices` base-price table of `generateMockChartData`. -/
def indianStockPrices : List (String × ℚ) :=
  [("RELIANCE", 2934.75), ("TCS", 3876.20), ("HDFCBANK", 1678.55),
   ("INFY", 1456.90), ("ICICIBANK", 1023.45), ("BHARTIARTL", 1189.30),
   ("HINDUNILVR", 2456.75), ("SBIN", 745.60), ("WIPRO", 478.90),
   ("LT", 3245.80), ("NIFTY", 22345.60), ("BANKNIFTY", 48234.75),
   ("SENSEX", 73456.80), ("NIFTYIT", 32567.90)]

/-- The `for` loop of `generateMockChartData`: `fuel` iterations remain,
`i` is the loop counter, `price` the walking `currentPrice`.  Point `i`
carries date `today - (100 - i)` (the source subtracts `dataPoints - i`
days from today, with `dataPoints = 100`); the walking price is clamped
below at 1 before being recorded rounded to two decimals. -/
def chartLoop (today : ℤ) (trendStrength trendDirection volatilityFactor : ℚ)
    (rand : ℕ → ℚ) : ℕ → ℕ → ℚ → List ChartPoint
  | 0, _, _ => []
  | fuel + 1, i, price =>
    let trendComponent := price * trendStrength * trendDirection
    let randomComponent := rand i * volatilityFactor * 2 - volatilityFactor
    let updated := price + trendComponent + randomComponent
    let clamped := if updated < 1 then 1 else updated
    { date := today - (100 - (i : ℤ)), value := round2 clamped } ::
      chartLoop today trendStrength trendDirection volatilityFactor rand fuel
        (i + 1) clamped

/-- `generateMockChartData(symbol)`: a 100-point random walk.  `today` is
the current day number; `rInit`, `rTrendDir`, `rTrendStr` are the draws
for the unknown-Indian-stock base price, the trend direction and strength;
`rand` is the stream of per-day volatility draws, each from `[0,1)`. -/
def generateMockChartData (symbol : String) (today : ℤ)
    (rInit rTrendDir rTrendStr : ℚ) (rand : ℕ → ℚ) : List ChartPoint :=
  let isIndianStock := jsStartsWith symbol "NSE:"
  let stockCode := replaceFirst symbol "NSE:"
  let basePrice := indianStockPrices.lookup stockCode
  let currentPrice : ℚ :=
    match isIndianStock, basePrice with
    | true, some p => p
    | true, none => 1000 + rInit * 2000
    | false, _ => 100
  let volatilityFactor : ℚ :=
    if isIndianStock then
      (match basePrice with
       | some _ => currentPrice * 0.005
       | none => currentPrice * 0.01)
    else currentPrice * 0.02
  let trendDirection : ℚ := if rTrendDir > 0.5 then 1 else -1
  let trendStrength := rTrendStr * 0.3
  chartLoop today trendStrength trendDirection volatilityFactor rand 100 0
    currentPrice

/-- `generateMockIndexData(name, currency)`; `rBase rChange` are its two
`Math.random()` draws, each from `[0,1)`. -/
def generateMockIndexData (name currency : String) (rBase rChange : ℚ) :
    IndexData :=
  let bv : ℚ × ℚ :=
    if name = "NIFTY 50" then (22000 + (rBase * 1000 - 500), 200)
    else if name = "Bank NIFTY" then (48000 + (rBase * 2000 - 1000), 400)
    else if name = "NIFTY IT" then (32000 + (rBase * 1500 - 750), 300)
    else if name = "SENSEX" then (38000 + (rBase * 1000 - 500), 300)
    else if name = "NIFTY Midcap 50" then (16000 + (rBase * 500 - 250), 150)
    else if name = "NIFTY Auto" then (10000 + rBase * 1000, 100)
    else (10000 + rBase * 1000, 100)
  let baseValue := bv.1
  let changeRange := bv.2
  let change := rChange * changeRange * 2 - changeRange
  let changePercent := (change / baseValue) * 100
  { name := name, value := baseValue, change := change,
    changePercent := changePercent, currency := currency, isMock := true }

/-- The six mock indices returned by `fetchMarketIndices` when every
provider path fails; `r` is the stream of `Math.random()` draws, two per
index in call order. -/
def mockIndices (r : ℕ → ℚ) : List IndexData :=
  [generateMockIndexData "NIFTY 50" "INR" (r 0) (r 1),
   generateMockIndexData "Bank NIFTY" "INR" (r 2) (r 3),
   generateMockIndexData "NIFTY IT" "INR" (r 4) (r 5),
   generateMockIndexData "SENSEX" "INR" (r 6) (r 7),
   generateMockIndexData "NIFTY Midcap 50" "INR" (r 8) (r 9),
   generateMockIndexData "NIFTY Auto" "INR" (r 10) (r 11)]

/-- The `indianStockKeywords` list of `getMockSearchResults`. -/
def indianStockKeywords : List String :=
  ["reliance", "tata", "infosys", "hdfc", "nifty", "sensex", "bajaj",
   "icici", "sbi", "axis", "airtel", "wipro", "hcl", "adani", "mahindra"]

/-- The `mockIndianStocks` list of `getMockSearchResults`. -/
def mockIndianStocks : List SearchResult :=
  [⟨"NSE:RELIANCE", "Reliance Industries Ltd", "India", "INR", "Equity"⟩,
   ⟨"NSE:TCS", "Tata Consultancy Services Ltd", "India", "INR", "Equity"⟩,
   ⟨"NSE:INFY", "Infosys Ltd", "India", "INR", "Equity"⟩,
   ⟨"NSE:HDFCBANK", "HDFC Bank Ltd", "India", "INR", "Equity"⟩,
   ⟨"NSE:ICICIBANK", "ICICI Bank Ltd", "India", "INR", "Equity"⟩,
   ⟨"NSE:SBIN", "State Bank of India", "India", "INR", "Equity"⟩,
   ⟨"NSE:BHARTIARTL", "Bharti Airtel Ltd", "India", "INR", "Equity"⟩,
   ⟨"NSE:WIPRO", "Wipro Ltd", "India", "INR", "Equity"⟩,
   ⟨"NSE:HCLTECH", "HCL Technologies Ltd", "India", "INR", "Equity"⟩,
   ⟨"NSE:LT", "Larsen & Toubro Ltd", "India", "INR", "Equity"⟩,
   ⟨"NSE:NIFTY", "NIFTY 50 Index", "India", "INR", "Index"⟩,
   ⟨"NSE:BANKNIFTY", "Bank NIFTY Index", "India", "INR", "Index"⟩,
   ⟨"NSE:SENSEX", "S&P BSE SENSEX Index", "India", "INR", "Index"⟩,
   ⟨"NSE:BAJFINANCE", "Bajaj Finance Ltd", "India", "INR", "Equity"⟩]

/-- The default US results returned for non-Indian queries. -/
def defaultUSSearch : List SearchResult :=
  [⟨"AAPL", "Apple Inc", "United States", "USD", "Equity"⟩,
   ⟨"MSFT", "Microsoft Corporation", "United States", "USD", "Equity"⟩,
   ⟨"GOOGL", "Alphabet Inc", "United States", "USD", "Equity"⟩,
   ⟨"AMZN", "Amazon.com Inc", "United States", "USD", "Equity"⟩,
   ⟨"META", "Meta Platforms Inc", "United States", "USD", "Equity"⟩]

/-- `getMockSearchResults(query, isIndianQuery)`. -/
def getMockSearchResults (query : String) (isIndianQuery : Bool) :
    List SearchResult :=
  let matchesIndianKeyword := indianStockKeywords.any fun keyword =>
    includesStr (jsToLower query) keyword || includesStr keyword (jsToLower query)
  if matchesIndianKeyword || isIndianQuery || decide (jsLength (jsTrim query) < 3) then
    mockIndianStocks.filter fun stock =>
      includesStr (jsToLower stock.symbol) (jsToLower query) ||
      includesStr (jsToLower stock.name) (jsToLower query) ||
      decide (jsLength (jsTrim query) < 3)
  else
    defaultUSSearch

/-- The outcomes of the Breeze-connector calls (`breezeUtils`) seen by the
current-revision orchestrators in `apiUtils.ts`.  Each wrapper is an async
call returning a record or `null`; the envelope also admits a rejection
(`.error`), a superset of the actual wrapper behaviour, so the theorems
below hold for every conceivable provider outcome. -/
structure BreezeEnv where
  available : Bool
  stockQuote : Except Unit (Option BreezeQuote)
  companyOverview : Except Unit (Option CompanyOverview)
  historicalData : Except Unit (Option (List ChartPoint))
  marketIndices : Except Unit (Option (List IndexData))
  search : Except Unit (Option (List SearchResult))

/-- `fetchStockQuote` (current revision): try the Breeze connector, fall
back to `generateMockStockData`; the surrounding `try/catch` turns any
rejection into the mock result. -/
def fetchStockQuote (env : BreezeEnv) (rPrice rChange rVolume : ℚ)
    (symbol : String) : Except Unit (Option StockQuoteResult) :=
  let body : Except Unit (Option StockQuoteResult) :=
    if env.available then
      match env.stockQuote with
      | .error e => .error e
      | .ok (some q) => .ok (some (.breeze q))
      | .ok none =>
        .ok (some (.mock (generateMockStockData symbol rPrice rChange rVolume)))
    else
      .ok (some (.mock (generateMockStockData symbol rPrice rChange rVolume)))
  match body with
  | .error _ =>
    .ok (some (.mock (generateMockStockData symbol rPrice rChange rVolume)))
  | .ok v => .ok v

/-- `fetchCompanyOverview` (current revision). -/
def fetchCompanyOverview (env : BreezeEnv) (rCap rPe rEps rDiv rTarget : ℚ)
    (symbol : String) : Except Unit (Option CompanyOverview) :=
  let mock := generateMockCompanyOverview symbol rCap rPe rEps rDiv rTarget
  let body : Except Unit (Option CompanyOverview) :=
    if env.available then
      match env.companyOverview with
      | .error e => .error e
      | .ok (some o) => .ok (some o)
      | .ok none => .ok (some mock)
    else .ok (some mock)
  match body with
  | .error _ => .ok (some mock)
  | .ok v => .ok v

/-- `fetchTimeSeriesData` (current revision). -/
def fetchTimeSeriesData (env : BreezeEnv) (today : ℤ)
    (rInit rTrendDir rTrendStr : ℚ) (rand : ℕ → ℚ) (symbol : String) :
    Except Unit (Option (List ChartPoint)) :=
  let mock := generateMockChartData symbol today rInit rTrendDir rTrendStr rand
  let body : Except Unit (Option (List ChartPoint)) :=
    if env.available then
      match env.historicalData with
      | .error e => .error e
      | .ok (some l) => .ok (some l)
      | .ok none => .ok (some mock)
    else .ok (some mock)
  match body with
  | .error _ => .ok (some mock)
  | .ok v => .ok v

/-- `fetchMarketIndices` (current revision): the Breeze result is used only
when it is non-null and non-empty. -/
def fetchMarketIndices (env : BreezeEnv) (r : ℕ → ℚ) :
    Except Unit (Option (List IndexData)) :=
  let body : Except Unit (Option (List IndexData)) :=
    if env.available then
      match env.marketIndices with
      | .error e => .error e
      | .ok (some l) =>
        if l.length > 0 then .ok (some l) else .ok (some (mockIndices r))
      | .ok none => .ok (some (mockIndices r))
    else .ok (some (mockIndices r))
  match body with
  | .error _ => .ok (some (mockIndices r))
  | .ok v => .ok v

/-- `searchStocks` (current revision): the Breeze result is used only when
it is non-null and non-empty, otherwise `getMockSearchResults(query, true)`. -/
def searchStocks (env : BreezeEnv) (query : String) :
    Except Unit (Option (List SearchResult)) :=
  let mock := getMockSearchResults query true
  let body : Except Unit (Option (List SearchResult)) :=
    if env.available then
      match env.search with
      | .error e => .error e
      | .ok (some l) =>
        if l.length > 0 then .ok (some l) else .ok (some mock)
      | .ok none => .ok (some mock)
    else .ok (some mock)
  match body with
  | .error _ => .ok (some mock)
  | .ok v => .ok v

end apiUtils

namespace breezeUtils

/-- The `Success` payload of the Breeze SDK `getQuotes` call, as read by
`breezeUtils.getStockQuote` (fields already parsed; a field whose
`parseFloat`/`parseInt` would give `NaN`, or which is missing, is `none` —
the source coalesces those with `|| 0`).  The source names the open price
`open`, a reserved word in Lean. -/
structure BreezeSuccessQuote where
  companyName : Option String
  lastRate : ℚ
  absoluteChange : ℚ
  percentageChange : ℚ
  volume : ℤ
  high : ℚ
  low : ℚ
  openPrice : ℚ
  close : ℚ
  marketCap : Option ℚ
  averageVolume : Option ℤ
  high52Week : Option ℚ
  low52Week : Option ℚ
  deriving DecidableEq, Repr

/-- `breezeUtils.getStockQuote`:  returns `null` when the client is not
initialized, when the SDK call rejects (its `try/catch` swallows the
error), or when the response carries no `Success` payload; otherwise the
assembled quote record.  Note it never throws. -/
def getStockQuote (clientInitialized : Bool)
    (response : Except Unit (Option BreezeSuccessQuote)) (symbol : String) :
    Option BreezeQuote :=
  if !clientInitialized then none
  else
    let stockCode := replaceFirst symbol "NSE:"
    match response with
    | .error _ => none
    | .ok none => none
    | .ok (some data) =>
      some { symbol := "NSE:" ++ stockCode,
             name := data.companyName.getD stockCode,
             price := data.lastRate,
             change := data.absoluteChange,
             changePercent := data.percentageChange,
             volume := data.volume,
             high := data.high,
             low := data.low,
             openPrice := data.openPrice,
             previousClose := data.close,
             marketCap := data.marketCap.getD 0,
             avgVolume := data.averageVolume.getD 0,
             week52High := data.high52Week.getD 0,
             week52Low := data.low52Week.getD 0,
             currency := "INR" }

end breezeUtils

namespace apiUtilsAV

/-- `API_CALL_LIMIT` of the Alpha Vantage revision: the free-tier limit of
5 calls per minute. -/
def API_CALL_LIMIT : ℕ := 5

/-- The observable effect of one `shouldUseMockData()` call in the Alpha
Vantage revision: its boolean result, whether it invoked
`resetApiCallCount()` (scheduling the one-minute reset timer), and the
value of the module-level `apiCallCount` afterwards. -/
structure RateResult where
  useMock : Bool
  schedulesReset : Bool
  apiCallCount : ℕ
  deriving DecidableEq, Repr

/-- `shouldUseMockData()` of the Alpha Vantage revision: report `true`
once `apiCallCount` has reached the limit; otherwise increment the counter,
schedule the reset timer exactly when the counter just became 1, and
report `false` (use the real API). -/
def shouldUseMockData (apiCallCount : ℕ) : RateResult :=
  if apiCallCount ≥ API_CALL_LIMIT then
    { useMock := true, schedulesReset := false, apiCallCount := apiCallCount }
  else
    { useMock := false, schedulesReset := apiCallCount + 1 = 1,
      apiCallCount := apiCallCount + 1 }

/-- The counter value after `n` consecutive `shouldUseMockData()` calls
within one window (the counter starts at 0 right after a reset). -/
def countAfter : ℕ → ℕ
  | 0 => 0
  | n + 1 => (shouldUseMockData (countAfter n)).apiCallCount

/-- The decoded Alpha Vantage `GLOBAL_QUOTE` response as discriminated by
`fetchStockQuote`: a populated `Global Quote` object (fields already
parsed), a rate-limit `Note`, or anything else (demo key / no data). -/
inductive AVQuoteResponse where
  | globalQuote (price change changePercent : ℚ) (volume : ℤ)
  | note
  | noData
  deriving DecidableEq

/-- The remote-call outcomes seen by one `fetchStockQuote` call of the
Alpha Vantage revision.  `avResponse = .error` covers a rejected `fetch`,
a non-ok HTTP status (the source throws) and a JSON-decode failure;
`companyName` is the string produced by `fetchCompanyName` (that helper
catches its own errors and always yields a string). -/
structure AVEnv where
  breezeAvailable : Bool
  sdkQuote : Except Unit (Option breezeUtils.BreezeSuccessQuote)
  apiCallCount : ℕ
  avResponse : Except Unit AVQuoteResponse
  companyName : String

/-- `fetchStockQuote` of the Alpha Vantage revision: try the Breeze
connector; on null/unavailable, consult the client-side rate limiter; if
admitted, call the Alpha Vantage `GLOBAL_QUOTE` endpoint; every remaining
path (rate-limited, thrown error, rate-limit note, missing data) falls
back to `generateMockStockData`. -/
def fetchStockQuote (env : AVEnv) (rPrice rChange rVolume : ℚ)
    (symbol : String) : Except Unit (Option StockQuoteResult) :=
  let mock := apiUtils.generateMockStockData symbol rPrice rChange rVolume
  let breezeData : Option BreezeQuote :=
    if env.breezeAvailable then
      breezeUtils.getStockQuote env.breezeAvailable env.sdkQuote symbol
    else none
  let body : Except Unit (Option StockQuoteResult) :=
    match breezeData with
    | some q => .ok (some (.breeze q))
    | none =>
      if (shouldUseMockData env.apiCallCount).useMock then
        .ok (some (.mock mock))
      else
        match env.avResponse with
        | .error e => .error e
        | .ok (.globalQuote price change changePercent volume) =>
          .ok (some (.av { symbol := symbol, name := env.companyName,
                           price := price, change := change,
                           changePercent := changePercent, volume := volume }))
        | .ok .note => .ok (some (.mock mock))
        | .ok .noData => .ok (some (.mock mock))
  match body with
  | .error _ => .ok (some (.mock mock))
  | .ok v => .ok v

/-- A concrete SDK `Success` payload, used to instantiate theorems. -/
def sampleBreezeSuccess : breezeUtils.BreezeSuccessQuote :=
  { companyName := some "Reliance Industries Ltd.", lastRate := 2934.75,
    absoluteChange := 23.45, percentageChange := 0.8, volume := 5000000,
    high := 2950, low := 2900, openPrice := 2920, close := 2911.3,
    marketCap := some 1984000, averageVolume := some 4000000,
    high52Week := some 3000, low52Week := some 2200 }

/-- A concrete environment in which the Breeze connector succeeds. -/
def sampleEnv : AVEnv :=
  { breezeAvailable := true, sdkQuote := .ok (some sampleBreezeSuccess),
    apiCallCount := 0, avResponse := .ok .noData,
    companyName := "Reliance Industries Ltd." }

/-- The quote record `breezeUtils.getStockQuote` assembles from
`sampleBreezeSuccess`. -/
def sampleBreezeQuote : BreezeQuote :=
  { symbol := "NSE:RELIANCE", name := "Reliance Industries Ltd.",
    price := 2934.75, change := 23.45, changePercent := 0.8,
    volume := 5000000, high := 2950, low := 2900, openPrice := 2920,
    previousClose := 2911.3, marketCap := 1984000, avgVolume := 4000000,
    week52High := 3000, week52Low := 2200, currency := "INR" }

end apiUtilsAV

namespace aiUtils

/-- The `StockData` interface of `aiUtils.ts` (the source names the open
price `open`, a reserved word in Lean). -/
structure StockData where
  symbol : String
  name : String
  price : ℚ
  change : ℚ
  changePercent : ℚ
  chartData : List ChartPoint
  marketCap : ℚ
  peRatio : ℚ
  eps : ℚ
  dividend : ℚ
  volume : ℤ
  avgVolume : ℤ
  high : ℚ
  low : ℚ
  openPrice : ℚ
  previousClose : ℚ
  week52High : ℚ
  week52Low : ℚ
  currency : String
  deriving DecidableEq, Repr

/-- The `AIRecommendation` record.  The TypeScript interface declares
narrowing unions (`"Buy" | "Sell" | "Hold"`, risk levels) and a bounded
confidence, but the source obtains the parsed value via
`JSON.parse(jsonStr) as AIRecommendation`, a compile-time cast with no
runtime validation — so the fields of a parsed record are unconstrained
and are modelled with their raw types. -/
structure AIRecommendation where
  summary : String
  recommendation : String
  confidenceScore : ℚ
  reasons : List String
  riskLevel : String
  shortTermOutlook : String
  longTermOutlook : String
  deriving DecidableEq, Repr

/-- The outcome of the Gemini call plus JSON extraction and parsing inside
`getAIRecommendation`: the `generateContent` call rejected; the regex
`/\x7b[\s\S]*\x7d/` found no JSON object in the reply text; `JSON.parse`
threw; or parsing succeeded, producing `r` (unvalidated, see
`AIRecommendation`). -/
inductive GeminiOutcome where
  | apiError
  | noJsonMatch
  | parseError
  | parsed (r : AIRecommendation)

/-- JS default number-to-string conversion used by template interpolation
(`${stockData.price}`).  Its exact decimal rendering is immaterial to the
claims (which inspect only the number and non-emptiness of these strings),
so the embedding renders the rational directly. -/
def numStr (q : ℚ) : String := toString q

/-- The fallback `AIRecommendation` built in the `catch` block of
`getAIRecommendation`, from simple threshold rules on `changePercent` and
`peRatio`. -/
def fallbackRecommendation (stockData : StockData) : AIRecommendation :=
  { summary := stockData.name ++ " shows " ++
      (if stockData.changePercent > 0 then "positive" else "negative") ++
      " movement with current market conditions.",
    recommendation :=
      if stockData.changePercent > 2 then "Buy"
      else if stockData.changePercent < -2 then "Sell"
      else "Hold",
    confidenceScore := 0.6,
    reasons :=
      ["Current price is " ++
        (if stockData.currency = "INR" then "₹" else "$") ++
        numStr stockData.price,
       (if stockData.changePercent > 0 then "Up" else "Down") ++ " " ++
        ratToFixed2 |stockData.changePercent| ++ "% recently",
       "P/E ratio is " ++
        (if stockData.peRatio > 25 then "high"
         else if stockData.peRatio < 15 then "low"
         else "moderate") ++ " at " ++ ratToFixed2 stockData.peRatio],
    riskLevel :=
      if stockData.changePercent > 5 ∨ stockData.changePercent < -5 then "High"
      else "Medium",
    shortTermOutlook := "Expect " ++
      (if stockData.changePercent > 0 then "continued growth"
       else "potential recovery") ++ " in the short term.",
    longTermOutlook := "Long-term prospects appear " ++
      (if stockData.peRatio < 20 then "favorable" else "challenging") ++
      " based on current valuation." }

/-- `getAIRecommendation` of `aiUtils.ts`: a successfully parsed model
reply is returned as-is (unvalidated); every failure (rejected call,
missing JSON, parse error) is caught and yields the fallback record. -/
def getAIRecommendation (outcome : GeminiOutcome) (stockData : StockData) :
    AIRecommendation :=
  match outcome with
  | .parsed r => r
  | .apiError => fallbackRecommendation stockData
  | .noJsonMatch => fallbackRecommendation stockData
  | .parseError => fallbackRecommendation stockData

/-- A concrete `StockData` record, used to instantiate theorems at a
specific input. -/
def sampleStockData : StockData :=
  { symbol := "NSE:RELIANCE", name := "Reliance Industries Ltd.",
    price := 2934.75, change := 23.45, changePercent := 3, chartData := [],
    marketCap := 1000000000, peRatio := 28.45, eps := 103.15, dividend := 2.75,
    volume := 5000000, avgVolume := 4000000, high := 2950, low := 2900,
    openPrice := 2920, previousClose := 2911.3, week52High := 3000,
    week52Low := 2200, currency := "INR" }

/-- A value `JSON.parse` can legitimately produce from a model reply (the
`as AIRecommendation` cast checks nothing): out-of-range confidence, four
reasons, and labels outside the declared unions. -/
def unvalidatedParsed : AIRecommendation :=
  { summary := "Overheated rally", recommendation := "StrongBuy",
    confidenceScore := 7,
    reasons := ["momentum", "hype", "volume", "news"],
    riskLevel := "Extreme", shortTermOutlook := "parabolic",
    longTermOutlook := "unknown" }

end aiUtils

/-!  ## Helper lemmas -/

/-- A string whose second append operand is non-empty is non-empty. -/
theorem append_ne_empty_of_right (a b : String) (h : b.data ≠ []) :
    a ++ b ≠ "" := by
  intro hc
  have hd := congrArg String.data hc
  simp only [String.data_append] at hd
  rcases List.append_eq_nil.mp hd with ⟨-, h2⟩
  exact h h2

/-- `addToWatchlist` preserves the no-duplicates invariant. -/
theorem addToWatchlist_nodup (w : List String) (s : String) (h : w.Nodup) :
    (hooks.addToWatchlist w s).Nodup := by
  unfold hooks.addToWatchlist
  by_cases hm : s ∈ w
  · simpa [hm] using h
  · simp [hm, List.nodup_append, h]

/-- `removeFromWatchlist` preserves the no-duplicates invariant. -/
theorem removeFromWatchlist_nodup (w : List String) (s : String)
    (h : w.Nodup) : (hooks.removeFromWatchlist w s).Nodup :=
  List.Nodup.filter _ h

/-- Any sequence of watchlist actions preserves the no-duplicates
invariant. -/
theorem applyOps_nodup (ops : List hooks.WatchlistOp) :
    ∀ w : List String, w.Nodup → (hooks.applyOps w ops).Nodup := by
  induction ops with
  | nil => intro w h; exact h
  | cons op ops ih =>
    intro w h
    cases op with
    | add s => exact ih _ (addToWatchlist_nodup w s h)
    | remove s => exact ih _ (removeFromWatchlist_nodup w s h)

/-- Removing a symbol leaves the count of every other symbol unchanged. -/
theorem removeFromWatchlist_count_other (w : List String) (s t : String)
    (h : t ≠ s) : (hooks.removeFromWatchlist w s).count t = w.count t := by
  unfold hooks.removeFromWatchlist
  rw [List.count_filter]
  simp [h]

/-!  ## Claim theorems -/

/-- C5: `formatCurrency(num, symbol)` selects the Indian Rupee format
(INR, locale `en-IN`) exactly when the symbol starts with `NSE:`, the US
Dollar format (USD, locale `en-US`) for every other symbol (including the
default empty symbol), and both formats use exactly two fraction digits. -/
theorem spec_C5 (num : ℚ) (symbol : String) :
    ((apiUtils.formatCurrency num symbol).currency = "INR" ↔
      jsStartsWith symbol "NSE:" = true) ∧
    ((apiUtils.formatCurrency num symbol).currency = "USD" ↔
      jsStartsWith symbol "NSE:" = false) ∧
    ((apiUtils.formatCurrency num symbol).locale =
      if jsStartsWith symbol "NSE:" then "en-IN" else "en-US") ∧
    (apiUtils.formatCurrency num symbol).minimumFractionDigits = 2 ∧
    (apiUtils.formatCurrency num symbol).maximumFractionDigits = 2 := by
  unfold apiUtils.formatCurrency
  cases h : jsStartsWith symbol "NSE:" <;> simp [h]

/-- C7: watchlist add is idempotent — adding a symbol already present
leaves the list unchanged, adding the same symbol twice yields a single
entry, and any sequence of add/remove operations preserves freedom from
duplicates. -/
theorem spec_C7 (w : List String) (s : String) :
    (s ∈ w → hooks.addToWatchlist w s = w) ∧
    (w.Nodup →
      (hooks.addToWatchlist (hooks.addToWatchlist w s) s).count s = 1) ∧
    (∀ ops : List hooks.WatchlistOp, w.Nodup →
      (hooks.applyOps w ops).Nodup) := by
  refine ⟨?_, ?_, ?_⟩
  · intro hm
    simp [hooks.addToWatchlist, hm]
  · intro hnodup
    by_cases hm : s ∈ w
    · have h1 : hooks.addToWatchlist w s = w := by
        simp [hooks.addToWatchlist, hm]
      rw [h1, h1]
      exact List.count_eq_one_of_mem hnodup hm
    · have h1 : hooks.addToWatchlist w s = w ++ [s] := by
        simp [hooks.addToWatchlist, hm]
      have h2 : hooks.addToWatchlist (w ++ [s]) s = w ++ [s] := by
        simp [hooks.addToWatchlist]
      rw [h1, h2]
      simp [List.count_append, List.count_eq_zero.mpr hm]
  · intro ops h
    exact applyOps_nodup ops w h

/-- C7 witness: concrete instances of the idempotence and invariant
parts. -/
theorem spec_C7_witness :
    hooks.addToWatchlist ["NSE:TCS"] "NSE:TCS" = ["NSE:TCS"] ∧
    (hooks.addToWatchlist (hooks.addToWatchlist ["NSE:TCS"] "NSE:INFY")
        "NSE:INFY").count "NSE:INFY" = 1 ∧
    (hooks.applyOps ["NSE:TCS"]
        [.add "NSE:INFY", .add "NSE:INFY", .remove "NSE:TCS"]).Nodup :=
  ⟨(spec_C7 ["NSE:TCS"] "NSE:TCS").1 (by decide),
   (spec_C7 ["NSE:TCS"] "NSE:INFY").2.1 (by decide),
   (spec_C7 ["NSE:TCS"] "NSE:INFY").2.2 _ (by decide)⟩

/-- C8: watchlist remove of a non-member is a no-op; removing a member
removes every occurrence of that symbol and changes nothing else. -/
theorem spec_C8 (w : List String) (s : String) :
    (s ∉ w → hooks.removeFromWatchlist w s = w) ∧
    s ∉ hooks.removeFromWatchlist w s ∧
    (∀ t, t ≠ s → (hooks.removeFromWatchlist w s).count t = w.count t) := by
  refine ⟨?_, ?_, ?_⟩
  · intro hm
    unfold hooks.removeFromWatchlist
    rw [List.filter_eq_self]
    intro a ha
    simp only [bne_iff_ne, ne_eq]
    rintro rfl
    exact hm ha
  · simp [hooks.removeFromWatchlist]
  · intro t ht
    exact removeFromWatchlist_count_other w s t ht

/-- C8 witness: removing an absent symbol leaves a concrete watchlist
unchanged; removing a present one erases it and keeps other counts. -/
theorem spec_C8_witness :
    hooks.removeFromWatchlist ["NSE:TCS"] "NSE:INFY" = ["NSE:TCS"] ∧
    (hooks.removeFromWatchlist ["NSE:TCS", "NSE:INFY"] "NSE:INFY").count
      "NSE:TCS" = 1 :=
  ⟨(spec_C8 ["NSE:TCS"] "NSE:INFY").1 (by decide),
   by
    rw [(spec_C8 ["NSE:TCS", "NSE:INFY"] "NSE:INFY").2.2 "NSE:TCS" (by decide)]
    decide⟩

/-- C10: the heuristic `getAIRecommendation` of `stockUtils.ts` always
returns at most 3 reasons and a confidence within `[0, 100]`, and whenever
it recommends Buy or Sell the confidence is at least 30. -/
theorem spec_C10 (priceChangePercent peRatio volume avgVolume : ℚ) :
    (stockUtils.getAIRecommendation priceChangePercent peRatio volume
        avgVolume).reasons.length ≤ 3 ∧
    0 ≤ (stockUtils.getAIRecommendation priceChangePercent peRatio volume
        avgVolume).confidence ∧
    (stockUtils.getAIRecommendation priceChangePercent peRatio volume
        avgVolume).confidence ≤ 100 ∧
    (((stockUtils.getAIRecommendation priceChangePercent peRatio volume
          avgVolume).recommendation = "Buy" ∨
      (stockUtils.getAIRecommendation priceChangePercent peRatio volume
          avgVolume).recommendation = "Sell") →
      30 ≤ (stockUtils.getAIRecommendation priceChangePercent peRatio volume
          avgVolume).confidence) := by
  set s := stockUtils.score priceChangePercent peRatio volume avgVolume with hs
  have hrec : (stockUtils.getAIRecommendation priceChangePercent peRatio volume
      avgVolume).recommendation =
      (if s ≥ 65 then "Buy" else if s ≤ 35 then "Sell" else "Hold") := rfl
  have hconf : (stockUtils.getAIRecommendation priceChangePercent peRatio
      volume avgVolume).confidence = min 100 (max 0 (|s - 50| * 2)) := rfl
  refine ⟨?_, ?_, ?_, ?_⟩
  · simp [stockUtils.getAIRecommendation]
  · rw [hconf]
    exact le_min (by norm_num) (le_max_left 0 _)
  · rw [hconf]
    exact min_le_left _ _
  · intro hbs
    rw [hconf]
    have habs : (15 : ℚ) ≤ |s - 50| := by
      by_cases h65 : s ≥ 65
      · calc (15 : ℚ) ≤ s - 50 := by linarith
          _ ≤ |s - 50| := le_abs_self _
      · by_cases h35 : s ≤ 35
        · calc (15 : ℚ) ≤ -(s - 50) := by linarith
            _ ≤ |s - 50| := neg_le_abs _
        · rw [hrec, if_neg h65, if_neg h35] at hbs
          rcases hbs with hb | hb <;> simp at hb
    refine le_min (by norm_num) (le_trans ?_ (le_max_right 0 _))
    linarith

/-- C10 witness: a concrete Buy recommendation whose confidence is at
least 30. -/
theorem spec_C10_witness :
    30 ≤ (stockUtils.getAIRecommendation 3 10 2 1).confidence :=
  (spec_C10 3 10 2 1).2.2.2
    (Or.inl (by norm_num [stockUtils.getAIRecommendation, stockUtils.score,
      stockUtils.momentumFactor, stockUtils.peFactor, stockUtils.volumeFactor]))

/-- C3: whenever the generative-language call throws, or JSON extraction or
parsing of its reply fails, `getAIRecommendation` returns the fallback
record with every field populated: the Buy/Sell/Hold threshold rule on
`changePercent`, confidence 0.6, exactly 3 reasons, a risk level, and
non-empty summary and outlook texts. -/
theorem spec_C3 (stockData : aiUtils.StockData)
    (outcome : aiUtils.GeminiOutcome)
    (hfail : outcome = .apiError ∨ outcome = .noJsonMatch ∨
      outcome = .parseError) :
    aiUtils.getAIRecommendation outcome stockData =
      aiUtils.fallbackRecommendation stockData ∧
    (aiUtils.fallbackRecommendation stockData).recommendation =
      (if stockData.changePercent > 2 then "Buy"
       else if stockData.changePercent < -2 then "Sell" else "Hold") ∧
    (aiUtils.fallbackRecommendation stockData).confidenceScore = 0.6 ∧
    (aiUtils.fallbackRecommendation stockData).reasons.length = 3 ∧
    ((aiUtils.fallbackRecommendation stockData).riskLevel = "High" ∨
      (aiUtils.fallbackRecommendation stockData).riskLevel = "Medium") ∧
    (aiUtils.fallbackRecommendation stockData).summary ≠ "" ∧
    (aiUtils.fallbackRecommendation stockData).shortTermOutlook ≠ "" ∧
    (aiUtils.fallbackRecommendation stockData).longTermOutlook ≠ "" := by
  have hres : aiUtils.getAIRecommendation outcome stockData =
      aiUtils.fallbackRecommendation stockData := by
    rcases hfail with rfl | rfl | rfl <;> rfl
  refine ⟨hres, rfl, rfl, rfl, ?_, ?_, ?_, ?_⟩
  · simp only [aiUtils.fallbackRecommendation]
    split_ifs <;> simp
  · exact append_ne_empty_of_right _ _ (by decide)
  · exact append_ne_empty_of_right _ _ (by decide)
  · exact append_ne_empty_of_right _ _ (by decide)

/-- C3 witness: the fallback is returned when the call rejects, at a
concrete stock record. -/
theorem spec_C3_witness :
    aiUtils.getAIRecommendation .apiError aiUtils.sampleStockData =
      aiUtils.fallbackRecommendation aiUtils.sampleStockData :=
  (spec_C3 aiUtils.sampleStockData .apiError (Or.inl rfl)).1

/-- C6 (amended): the record produced along the fallback path satisfies the
declared bounds (confidence in `[0,1]`, at most 3 reasons, recommendation
among Buy/Sell/Hold, risk level among Low/Medium/High); a record parsed
from the model reply is returned without validation, so those bounds are
not guaranteed for it. -/
theorem spec_C6 (stockData : aiUtils.StockData)
    (outcome : aiUtils.GeminiOutcome) :
    (∀ r, aiUtils.getAIRecommendation (.parsed r) stockData = r) ∧
    ((outcome = .apiError ∨ outcome = .noJsonMatch ∨
        outcome = .parseError) →
      0 ≤ (aiUtils.getAIRecommendation outcome stockData).confidenceScore ∧
      (aiUtils.getAIRecommendation outcome stockData).confidenceScore ≤ 1 ∧
      (aiUtils.getAIRecommendation outcome stockData).reasons.length ≤ 3 ∧
      ((aiUtils.getAIRecommendation outcome stockData).recommendation = "Buy" ∨
        (aiUtils.getAIRecommendation outcome stockData).recommendation =
          "Sell" ∨
        (aiUtils.getAIRecommendation outcome stockData).recommendation =
          "Hold") ∧
      ((aiUtils.getAIRecommendation outcome stockData).riskLevel = "Low" ∨
        (aiUtils.getAIRecommendation outcome stockData).riskLevel = "Medium" ∨
        (aiUtils.getAIRecommendation outcome stockData).riskLevel = "High")) := by
  constructor
  · intro r
    rfl
  · intro hfail
    have hres : aiUtils.getAIRecommendation outcome stockData =
        aiUtils.fallbackRecommendation stockData := by
      rcases hfail with rfl | rfl | rfl <;> rfl
    rw [hres]
    refine ⟨by norm_num [aiUtils.fallbackRecommendation], by
      norm_num [aiUtils.fallbackRecommendation], by
      simp [aiUtils.fallbackRecommendation], ?_, ?_⟩
    · simp only [aiUtils.fallbackRecommendation]
      split_ifs <;> simp
    · simp only [aiUtils.fallbackRecommendation]
      split_ifs <;> simp

/-- C6 counterexample: the claim as stated is false — a parsed model reply
with confidence 7, four reasons, and labels outside the declared unions is
returned unchanged by `getAIRecommendation`. -/
theorem spec_C6_counterexample :
    aiUtils.getAIRecommendation (.parsed aiUtils.unvalidatedParsed)
        aiUtils.sampleStockData = aiUtils.unvalidatedParsed ∧
    ¬ ((aiUtils.getAIRecommendation (.parsed aiUtils.unvalidatedParsed)
        aiUtils.sampleStockData).confidenceScore ≤ 1) ∧
    ¬ ((aiUtils.getAIRecommendation (.parsed aiUtils.unvalidatedParsed)
        aiUtils.sampleStockData).reasons.length ≤ 3) ∧
    (aiUtils.getAIRecommendation (.parsed aiUtils.unvalidatedParsed)
        aiUtils.sampleStockData).recommendation ≠ "Buy" ∧
    (aiUtils.getAIRecommendation (.parsed aiUtils.unvalidatedParsed)
        aiUtils.sampleStockData).recommendation ≠ "Sell" ∧
    (aiUtils.getAIRecommendation (.parsed aiUtils.unvalidatedParsed)
        aiUtils.sampleStockData).recommendation ≠ "Hold" ∧
    (aiUtils.getAIRecommendation (.parsed aiUtils.unvalidatedParsed)
        aiUtils.sampleStockData).riskLevel ≠ "Low" ∧
    (aiUtils.getAIRecommendation (.parsed aiUtils.unvalidatedParsed)
        aiUtils.sampleStockData).riskLevel ≠ "Medium" ∧
    (aiUtils.getAIRecommendation (.parsed aiUtils.unvalidatedParsed)
        aiUtils.sampleStockData).riskLevel ≠ "High" := by
  refine ⟨rfl, ?_, ?_, ?_, ?_, ?_, ?_, ?_, ?_⟩ <;>
    simp [aiUtils.getAIRecommendation, aiUtils.unvalidatedParsed]

/-- C6 witness: the amended bounds at a concrete stock record on the
fallback path. -/
theorem spec_C6_witness :
    (aiUtils.getAIRecommendation .parseError
      aiUtils.sampleStockData).confidenceScore ≤ 1 :=
  (((spec_C6 aiUtils.sampleStockData .parseError).2
    (Or.inr (Or.inr rfl))).2).1

/-- `chartLoop` emits exactly one point per remaining iteration. -/
theorem chartLoop_length (today : ℤ) (ts td vf : ℚ) (rand : ℕ → ℚ) :
    ∀ (fuel i : ℕ) (price : ℚ),
      (apiUtils.chartLoop today ts td vf rand fuel i price).length = fuel := by
  intro fuel
  induction fuel with
  | zero => intro i price; rfl
  | succ n ih =>
    intro i price
    simp only [apiUtils.chartLoop, List.length_cons, ih]

/-- The dates emitted by `chartLoop` from counter `i` are the consecutive
days `today - (100 - i)`, `today - (100 - (i + 1))`, … -/
theorem chartLoop_dates (today : ℤ) (ts td vf : ℚ) (rand : ℕ → ℚ) :
    ∀ (fuel i : ℕ) (price : ℚ),
      (apiUtils.chartLoop today ts td vf rand fuel i price).map
          ChartPoint.date =
        (List.range fuel).map (fun (j : ℕ) => today - (100 - ((i : ℤ) + (j : ℤ)))) := by
  intro fuel
  induction fuel with
  | zero => intro i price; rfl
  | succ n ih =>
    intro i price
    simp only [apiUtils.chartLoop, List.map_cons, ih]
    rw [List.range_succ_eq_map, List.map_cons, List.map_map]
    simp only [List.cons.injEq]
    constructor
    · push_cast
      ring
    · refine List.map_congr_left fun j _ => ?_
      simp only [Function.comp]
      push_cast
      ring

/-- Every price recorded by `chartLoop` is at least 1: the walking price is
clamped below at 1 before being rounded to two decimals. -/
theorem one_le_round2 (q : ℚ) (h : 1 ≤ q) : 1 ≤ round2 q := by
  rw [round2]
  have h1 : (100 : ℤ) ≤ round (q * 100) := by
    rw [round_eq]
    calc (100 : ℤ) = ⌊(100 : ℚ) + 1 / 2⌋ := by norm_num
      _ ≤ ⌊q * 100 + 1 / 2⌋ := Int.floor_le_floor (by linarith)
  rw [le_div_iff₀ (by norm_num : (0 : ℚ) < 100)]
  calc (1 : ℚ) * 100 = ((100 : ℤ) : ℚ) := by norm_num
    _ ≤ ((round (q * 100) : ℤ) : ℚ) := by exact_mod_cast h1

/-- All values in a `chartLoop` run are at least 1. -/
theorem chartLoop_value_ge_one (today : ℤ) (ts td vf : ℚ) (rand : ℕ → ℚ) :
    ∀ (fuel i : ℕ) (price : ℚ) (p : ChartPoint),
      p ∈ apiUtils.chartLoop today ts td vf rand fuel i price →
        1 ≤ p.value := by
  intro fuel
  induction fuel with
  | zero =>
    intro i price p hp
    simp [apiUtils.chartLoop] at hp
  | succ n ih =>
    intro i price p hp
    simp only [apiUtils.chartLoop, List.mem_cons] at hp
    rcases hp with rfl | hp
    · dsimp only
      apply one_le_round2
      split_ifs with h
      · norm_num
      · linarith [not_lt.mp h]
    · exact ih _ _ _ hp

/-- C4: `generateMockChartData` always returns a non-empty series of
exactly 100 points, whose dates are consecutive calendar days in
chronological order, and whose values are all positive (the walking price
is clamped below at 1 before each point is recorded). -/
theorem spec_C4 (symbol : String) (today : ℤ) (rInit rTrendDir rTrendStr : ℚ)
    (rand : ℕ → ℚ) :
    (apiUtils.generateMockChartData symbol today rInit rTrendDir rTrendStr
        rand).length = 100 ∧
    apiUtils.generateMockChartData symbol today rInit rTrendDir rTrendStr
        rand ≠ [] ∧
    (apiUtils.generateMockChartData symbol today rInit rTrendDir rTrendStr
        rand).map ChartPoint.date =
      (List.range 100).map (fun (i : ℕ) => today - 100 + (i : ℤ)) ∧
    ∀ p ∈ apiUtils.generateMockChartData symbol today rInit rTrendDir
        rTrendStr rand, 0 < p.value := by
  obtain ⟨ts, td, vf, p0, h⟩ : ∃ ts td vf p0,
      apiUtils.generateMockChartData symbol today rInit rTrendDir rTrendStr
          rand = apiUtils.chartLoop today ts td vf rand 100 0 p0 :=
    ⟨_, _, _, _, rfl⟩
  rw [h]
  refine ⟨chartLoop_length today ts td vf rand 100 0 p0, ?_, ?_, ?_⟩
  · intro hnil
    have := chartLoop_length today ts td vf rand 100 0 p0
    rw [hnil] at this
    simp at this
  · rw [chartLoop_dates]
    refine List.map_congr_left fun j _ => ?_
    push_cast
    ring
  · intro p hp
    have := chartLoop_value_ge_one today ts td vf rand 100 0 p0 p hp
    linarith

/-- C1: each UI-facing fetch function of the current revision resolves
successfully (the surrounding `try/catch` converts every rejection into a
synthetic result) and returns a defined value of its declared shape —
never `undefined`/`null` — for every symbol, query and provider outcome. -/
theorem spec_C1 (env : apiUtils.BreezeEnv) (symbol query : String)
    (today : ℤ) (r1 r2 r3 r4 r5 : ℚ) (rand : ℕ → ℚ) :
    (∃ v, apiUtils.fetchStockQuote env r1 r2 r3 symbol = .ok (some v)) ∧
    (∃ v, apiUtils.fetchCompanyOverview env r1 r2 r3 r4 r5 symbol =
      .ok (some v)) ∧
    (∃ v, apiUtils.fetchTimeSeriesData env today r1 r2 r3 rand symbol =
      .ok (some v)) ∧
    (∃ v, apiUtils.fetchMarketIndices env rand = .ok (some v)) ∧
    (∃ v, apiUtils.searchStocks env query = .ok (some v)) := by
  obtain ⟨avail, sq, co, hd, mi, se⟩ := env
  refine ⟨?_, ?_, ?_, ?_, ?_⟩
  · cases avail
    · exact ⟨_, rfl⟩
    · rcases sq with e | op
      · exact ⟨_, rfl⟩
      · rcases op with _ | q
        · exact ⟨_, rfl⟩
        · exact ⟨_, rfl⟩
  · cases avail
    · exact ⟨_, rfl⟩
    · rcases co with e | op
      · exact ⟨_, rfl⟩
      · rcases op with _ | o
        · exact ⟨_, rfl⟩
        · exact ⟨_, rfl⟩
  · cases avail
    · exact ⟨_, rfl⟩
    · rcases hd with e | op
      · exact ⟨_, rfl⟩
      · rcases op with _ | l
        · exact ⟨_, rfl⟩
        · exact ⟨_, rfl⟩
  · cases avail
    · exact ⟨_, rfl⟩
    · rcases mi with e | op
      · exact ⟨_, rfl⟩
      · rcases op with _ | l
        · exact ⟨_, rfl⟩
        · rcases l with _ | ⟨x, xs⟩
          · exact ⟨_, rfl⟩
          · exact ⟨x :: xs, by simp [apiUtils.fetchMarketIndices]⟩
  · cases avail
    · exact ⟨_, rfl⟩
    · rcases se with e | op
      · exact ⟨_, rfl⟩
      · rcases op with _ | l
        · exact ⟨_, rfl⟩
        · rcases l with _ | ⟨x, xs⟩
          · exact ⟨_, rfl⟩
          · exact ⟨x :: xs, by simp [apiUtils.searchStocks]⟩

/-- C2: the Alpha Vantage revision of `fetchStockQuote` tries the Breeze
connector first, then (when the rate limiter admits the call) the public
Alpha Vantage quote API, and falls back to the synthetic generator; the
first provider success is returned unchanged; the Breeze wrapper signals
unavailability by returning null (it never throws, its `try/catch` is
internal); the synthetic record is returned exactly when the Breeze
connector yields no data and the public API path fails (rate-limited,
rejected, rate-limit note, or missing data). -/
theorem spec_C2 (env : apiUtilsAV.AVEnv) (rPrice rChange rVolume : ℚ)
    (symbol : String) :
    (∀ e, breezeUtils.getStockQuote true (.error e) symbol = none) ∧
    (∀ q, (if env.breezeAvailable then
        breezeUtils.getStockQuote env.breezeAvailable env.sdkQuote symbol
      else none) = some q →
      apiUtilsAV.fetchStockQuote env rPrice rChange rVolume symbol =
        .ok (some (.breeze q))) ∧
    (∀ price change changePercent volume,
      (if env.breezeAvailable then
        breezeUtils.getStockQuote env.breezeAvailable env.sdkQuote symbol
      else none) = none →
      (apiUtilsAV.shouldUseMockData env.apiCallCount).useMock = false →
      env.avResponse = .ok (.globalQuote price change changePercent volume) →
      apiUtilsAV.fetchStockQuote env rPrice rChange rVolume symbol =
        .ok (some (.av { symbol := symbol, name := env.companyName,
                         price := price, change := change,
                         changePercent := changePercent,
                         volume := volume }))) ∧
    ((∃ m, apiUtilsAV.fetchStockQuote env rPrice rChange rVolume symbol =
        .ok (some (.mock m))) ↔
      ((if env.breezeAvailable then
          breezeUtils.getStockQuote env.breezeAvailable env.sdkQuote symbol
        else none) = none ∧
        ((apiUtilsAV.shouldUseMockData env.apiCallCount).useMock = true ∨
          env.avResponse = .error () ∨ env.avResponse = .ok .note ∨
          env.avResponse = .ok .noData))) := by
  refine ⟨fun e => rfl, ?_, ?_, ?_⟩
  · intro q hq
    simp only [apiUtilsAV.fetchStockQuote, hq]
  · intro price change changePercent volume hB hRate hAV
    simp only [apiUtilsAV.fetchStockQuote, hB, hRate, hAV]
    simp
  · rcases hbd : (if env.breezeAvailable then
        breezeUtils.getStockQuote env.breezeAvailable env.sdkQuote symbol
      else none) with _ | q
    · cases humock : (apiUtilsAV.shouldUseMockData env.apiCallCount).useMock
      · rcases havr : env.avResponse with e | resp
        · cases e
          simp [apiUtilsAV.fetchStockQuote, hbd, humock, havr]
        · cases resp <;> simp [apiUtilsAV.fetchStockQuote, hbd, humock, havr]
      · simp [apiUtilsAV.fetchStockQuote, hbd, humock]
    · simp [apiUtilsAV.fetchStockQuote, hbd]

/-- C2 witness: with the Breeze connector succeeding, its record is
returned unchanged. -/
theorem spec_C2_witness :
    apiUtilsAV.fetchStockQuote apiUtilsAV.sampleEnv 0 0 0 "NSE:RELIANCE" =
      .ok (some (.breeze apiUtilsAV.sampleBreezeQuote)) :=
  (spec_C2 apiUtilsAV.sampleEnv 0 0 0 "NSE:RELIANCE").2.1
    apiUtilsAV.sampleBreezeQuote rfl

/-- Within one window the rate-limit counter is capped at the limit:
after `n` calls it equals `min n 5`. -/
theorem countAfter_eq_min (n : ℕ) : apiUtilsAV.countAfter n = min n 5 := by
  induction n with
  | zero => rfl
  | succ k ih =>
    simp only [apiUtilsAV.countAfter, ih, apiUtilsAV.shouldUseMockData,
      apiUtilsAV.API_CALL_LIMIT]
    split_ifs with h <;> simp <;> omega

/-- Within one window exactly `min n 5` of the first `n` calls are admitted
(report `false`). -/
theorem admitted_calls_eq_min (n : ℕ) :
    ((List.range n).countP (fun k =>
      !(apiUtilsAV.shouldUseMockData (apiUtilsAV.countAfter k)).useMock)) =
      min n 5 := by
  induction n with
  | zero => rfl
  | succ k ih =>
    rw [List.range_succ, List.countP_append, ih]
    simp only [List.countP_cons, List.countP_nil]
    by_cases h : 5 ≤ k
    · have hm : (apiUtilsAV.shouldUseMockData
          (apiUtilsAV.countAfter k)).useMock = true := by
        rw [countAfter_eq_min]
        unfold apiUtilsAV.shouldUseMockData apiUtilsAV.API_CALL_LIMIT
        rw [if_pos (by omega)]
      simp only [hm]
      simp
      omega
    · have hm : (apiUtilsAV.shouldUseMockData
          (apiUtilsAV.countAfter k)).useMock = false := by
        rw [countAfter_eq_min]
        unfold apiUtilsAV.shouldUseMockData apiUtilsAV.API_CALL_LIMIT
        rw [if_neg (by omega)]
      simp only [hm]
      simp
      omega

/-- C9: in the Alpha Vantage revision, between consecutive counter resets
at most `API_CALL_LIMIT` (5) `shouldUseMockData()` calls report `false`
(admitting a live request); every further call in the window reports
`true`; the reset timer is scheduled exactly when the counter moves from 0
to 1; and a rate-limited `fetchStockQuote` call (with the Breeze connector
yielding nothing) is routed to the synthetic generator. -/
theorem spec_C9 :
    (∀ n, apiUtilsAV.countAfter n = min n 5) ∧
    (∀ n, ((List.range n).countP (fun k =>
      !(apiUtilsAV.shouldUseMockData (apiUtilsAV.countAfter k)).useMock)) =
        min n 5) ∧
    (∀ n, ((List.range n).countP (fun k =>
      !(apiUtilsAV.shouldUseMockData (apiUtilsAV.countAfter k)).useMock)) ≤
        5) ∧
    (∀ k, 5 ≤ k →
      (apiUtilsAV.shouldUseMockData (apiUtilsAV.countAfter k)).useMock =
        true) ∧
    (∀ c, (apiUtilsAV.shouldUseMockData c).schedulesReset = true ↔ c = 0) ∧
    (∀ (env : apiUtilsAV.AVEnv) (rP rC rV : ℚ) (symbol : String),
      (if env.breezeAvailable then
        breezeUtils.getStockQuote env.breezeAvailable env.sdkQuote symbol
      else none) = none →
      (apiUtilsAV.shouldUseMockData env.apiCallCount).useMock = true →
      apiUtilsAV.fetchStockQuote env rP rC rV symbol =
        .ok (some (.mock (apiUtils.generateMockStockData symbol rP rC rV)))) := by
  refine ⟨countAfter_eq_min, admitted_calls_eq_min, ?_, ?_, ?_, ?_⟩
  · intro n
    rw [admitted_calls_eq_min]
    omega
  · intro k hk
    rw [countAfter_eq_min]
    unfold apiUtilsAV.shouldUseMockData apiUtilsAV.API_CALL_LIMIT
    rw [if_pos (by omega)]
  · intro c
    unfold apiUtilsAV.shouldUseMockData apiUtilsAV.API_CALL_LIMIT
    split_ifs with h
    · have hc : ¬ (c = 0) := by omega
      simp [hc]
    · show decide (c + 1 = 1) = true ↔ c = 0
      simp only [decide_eq_true_eq]
      omega
  · intro env rP rC rV symbol hB hM
    simp only [apiUtilsAV.fetchStockQuote, hB, hM]
    simp

/-- C9 witness: the 8th call of a window reports `true`, and a concrete
rate-limited fetch returns the synthetic record. -/
theorem spec_C9_witness :
    (apiUtilsAV.shouldUseMockData (apiUtilsAV.countAfter 7)).useMock = true ∧
    apiUtilsAV.fetchStockQuote
        { breezeAvailable := false, sdkQuote := .ok none, apiCallCount := 5,
          avResponse := .ok .noData, companyName := "AAPL" } 0 0 0 "AAPL" =
      .ok (some (.mock (apiUtils.generateMockStockData "AAPL" 0 0 0))) :=
  ⟨spec_C9.2.2.2.1 7 (by decide),
   spec_C9.2.2.2.2.2 _ 0 0 0 "AAPL" rfl rfl⟩
